import Mathlib

/-
Shallow embedding of the ncclient transport/session layer
(src/ncclient/transport/session.py and src/ncclient/transport/stdio.py).

Python strings over the wire are modelled as `List Char`.  StringIO buffers
are modelled by their content (`List Char`) together with an explicit read
position where the source keeps one (`_parsing_pos10` / `_parsing_pos11`);
after every parser invocation the source leaves the StringIO cursor equal to
the stored position field, so a single `pos` field suffices.  A Python
`raise` is modelled by an error constructor carrying the field values that
are observable on the session object at the moment of the raise.  Message
dispatch (`self._dispatch_message(...)`) is modelled by recording the
dispatched text in the result.
-/

namespace Ncclient

/-- Decidable equality for `Except`, so concrete runs can be settled by
`decide`. -/
instance {e a : Type} [DecidableEq e] [DecidableEq a] : DecidableEq (Except e a) :=
  fun x y =>
    match x, y with
    | .ok u, .ok v =>
      if h : u = v then .isTrue (congrArg Except.ok h)
      else .isFalse (fun hh => h (Except.ok.inj hh))
    | .error u, .error v =>
      if h : u = v then .isTrue (congrArg Except.error h)
      else .isFalse (fun hh => h (Except.error.inj hh))
    | .ok _, .error _ => .isFalse (fun hh => Except.noConfusion hh)
    | .error _, .ok _ => .isFalse (fun hh => Except.noConfusion hh)

/-- Python `x.isdigit()` for the single byte-characters this code reads. -/
def isDigitChar (c : Char) : Bool := '0' ≤ c && c ≤ '9'

/-- Python `long(''.join(num))` for a list of decimal digit characters. -/
def digitsVal (num : List Char) : Nat :=
  num.foldl (fun a c => 10 * a + (c.toNat - '0'.toNat)) 0

/-- Persisted fields of `Rfc4742Session` used by `_parse11`
(session.py lines 177-186): `_message`, `_expchunksize`, `_curchunksize`,
`_parsing_state11`, `_inendpos`, `_buffer` (content) and `_parsing_pos11`.
`_message` is a Python list of characters until it is joined to a string at
the end of a chunk; both hold the same characters, so one `List Char`
models the content of either. -/
structure P11State where
  message : List Char
  expchunksize : Nat
  curchunksize : Nat
  parsing_state11 : Nat
  inendpos : Nat
  buffer : List Char
  pos : Nat
  deriving DecidableEq, Repr

/-- Result of one `_parse11` invocation: either the written-back state
(session.py lines 352-358) with the list of dispatched messages, or the raise
of a framing exception, carrying the session fields observable at the raise
(the write-back is never reached, but `_message` has been mutated in place
through the aliasing local `message`). -/
inductive P11Out where
  | ok (s : P11State) (dispatched : List (List Char))
  | err (s : P11State)
  deriving DecidableEq, Repr

/-- Fresh `Rfc4742Session` parser state over a given buffer content
(all counters zero, empty message, as set in `__init__`). -/
def freshP11 (b : List Char) : P11State :=
  { message := [], expchunksize := 0, curchunksize := 0,
    parsing_state11 := 0, inendpos := 0, buffer := b, pos := 0 }

/-- The per-character loop of `_parse11` (session.py lines 249-350).
States: 0 = idle, 1 = instart, 2 = inmsg, 3 = inbetween, 4 = inend
(`idle, instart, inmsg, inbetween, inend = range(5)`).

Arguments mirror the Python locals: `msg` is the content of the local
`message` (which aliases `self._message`, so it is also the field-visible
content at any raise before the first dispatch), `exp`/`cur` are
`expchunksize`/`curchunksize`, `st` the automaton state, `ie` `inendpos`,
`num` the local list of chunk-size digits (created afresh on every call,
line 247), and the last argument is the unread suffix of the buffer.

At end of input the write-back of lines 352-358 is produced: the buffer is
unchanged and `buf.tell()` equals its length.  On a full terminator the
message is dispatched, the consumed prefix dropped (lines 330-344) and the
loop exited by `break`, with `curchunksize` left at its stale value
(line 341 resets a misspelled local `chunksize`, not `curchunksize`).
`long('')` raising (empty digit list at the header newline, line 283) is
modelled by the `num = []` error branch. -/
def p11go (s0 : P11State) (msg : List Char) (exp cur st ie : Nat)
    (num : List Char) : List Char → P11Out
  | [] =>
    .ok { message := msg, expchunksize := exp, curchunksize := cur,
          parsing_state11 := st, inendpos := ie,
          buffer := s0.buffer, pos := s0.buffer.length } []
  | x :: xs =>
    if st = 0 then
      if x = '\n' then
        p11go s0 msg exp cur 1 1 num xs
      else
        .err { s0 with message := msg }
    else if st = 1 then
      if ie = 1 then
        if x = '#' then p11go s0 msg exp cur 1 (ie + 1) num xs
        else .err { s0 with message := msg }
      else if ie = 2 then
        if isDigitChar x then p11go s0 msg exp cur 1 (ie + 1) (num ++ [x]) xs
        else .err { s0 with message := msg }
      else
        if ie = 10 then
          .err { s0 with message := msg }
        else if x = '\n' then
          if num = [] then .err { s0 with message := msg }
          else p11go s0 msg (digitsVal num) 0 2 (ie + 1) num xs
        else if isDigitChar x then
          p11go s0 msg exp cur 1 (ie + 1) (num ++ [x]) xs
        else
          .err { s0 with message := msg }
    else if st = 2 then
      if (exp : Int) - ((cur + 1 : Nat) : Int) = 0 then
        p11go s0 (msg ++ [x]) exp (cur + 1) 3 0 num xs
      else
        p11go s0 (msg ++ [x]) exp (cur + 1) 2 ie num xs
    else if st = 3 then
      if ie = 0 then
        if x = '\n' then p11go s0 msg exp cur 3 (ie + 1) num xs
        else .err { s0 with message := msg }
      else if ie = 1 then
        if x = '#' then p11go s0 msg exp cur 3 (ie + 1) num xs
        else .err { s0 with message := msg }
      else
        if x = '#' then p11go s0 msg exp cur 4 (ie + 1) num xs
        else .err { s0 with message := msg }
    else if st = 4 then
      if ie = 3 then
        if x = '\n' then
          .ok { message := [], expchunksize := 0, curchunksize := cur,
                parsing_state11 := 0, inendpos := 0, buffer := xs, pos := 0 }
             [msg]
        else .err { s0 with message := msg }
      else
        p11go s0 msg exp cur 4 ie num xs
    else
      .err { s0 with message := msg }

/-- One invocation of `Rfc4742Session._parse11` (session.py lines 235-359):
read the locals from the session fields, seek to `_parsing_pos11`, run the
loop with a fresh local `num`. -/
def parse11 (s : P11State) : P11Out :=
  p11go s s.message s.expchunksize s.curchunksize s.parsing_state11
    s.inendpos [] (s.buffer.drop s.pos)

/-- The v1.0 end-of-message delimiter `MSG_DELIM = "]]>]]>"`. -/
def delim10 : List Char := "]]>]]>".toList

/-- Python `delim[i]` (indices used by the scanner stay within 0..5 in every
run reachable through the session API; out-of-range reads take a default). -/
def delimAt (i : Nat) : Char := delim10.getD i '?'

/-- Python whitespace as stripped by `str.strip()`. -/
def isPySpace (c : Char) : Bool :=
  c = ' ' || c = '\t' || c = '\n' || c = '\r' || c = '\x0b' || c = '\x0c'

/-- Python `s.strip()`: remove leading and trailing whitespace. -/
def pyStrip (l : List Char) : List Char :=
  ((l.dropWhile isPySpace).reverse.dropWhile isPySpace).reverse

/-- Persisted fields of `Rfc4742Session` used by `_parse10`: `_buffer`
(content), `_parsing_state10` (read at line 198, but never written back:
line 232 assigns a misspelled `_parsing_state` instead), `_parsing_state`
(the attribute the write-back of line 232 actually creates; never read),
and `_parsing_pos10`. -/
structure P10State where
  buffer : List Char
  parsing_state10 : Nat
  parsing_state : Nat
  pos10 : Nat
  deriving DecidableEq, Repr

/-- Snapshot of the locals of `_parse10` when its while-loop finishes:
final buffer object content, `buf.tell()`, `expect`, and the messages
dispatched during the call. -/
structure P10Final where
  buffer : List Char
  pos : Nat
  expect : Nat
  dispatched : List (List Char)
  deriving DecidableEq, Repr

/-- Fresh `Rfc4742Session` v1.0 parser state (empty buffer, zero counters). -/
def freshP10 : P10State :=
  { buffer := [], parsing_state10 := 0, parsing_state := 0, pos10 := 0 }

/-- Control position inside the `_parse10` while-loop: `outer` is the top of
the `while True` loop, `inner k` is the inner `for i in range(expect, n)`
loop with `k` iterations left (fixed at `5 - expect` on entry, since
`n = len(delim) - 1 = 5`). -/
inductive P10Mode where
  | outer
  | inner (k : Nat)
  deriving DecidableEq, Repr

/-- The scanning loop of `_parse10` (session.py lines 201-230) over buffer
content `B`, read position `p` (`buf.tell()`) and delimiter-match count
`expect`.  Outer loop: read one character; at end of input break, returning
the loop snapshot; if it matches `delim[expect]` increment `expect` and
enter the inner loop for `5 - expect` iterations; on a mismatch reset
`expect` to 0 and continue with the next character — the mismatched
character is consumed, not re-checked.  Inner loop: same reads and matches,
a mismatch resets `expect` and returns to the outer loop, end of input
breaks out (the outer loop then immediately reads end of input too).  When
the inner loop exhausts its iterations, the `for`-`else` branch (lines
220-230) declares the delimiter parsed after only the first five of its six
characters: `msg_till = buf.tell() - n`, dispatch `buf[0:msg_till].strip()`,
then seek `n + 1 = 6` characters past the message — the sixth delimiter
character is skipped without ever being compared; the remainder becomes a
fresh buffer and scanning restarts at the outer loop with `expect = 0`.
`fuel` only pays for the recursion: every step either consumes a character
or dispatches, dropping at least six characters, so the initial fuel of
`parse10` is never exhausted. -/
def p10run (fuel : Nat) (mode : P10Mode) (B : List Char) (p expect : Nat)
    (disp : List (List Char)) : Option P10Final :=
  match fuel with
  | 0 => none
  | fuel + 1 =>
    match mode with
    | .inner 0 =>
      p10run fuel .outer (B.drop (p - 5 + 6)) 0 0 (disp ++ [pyStrip (B.take (p - 5))])
    | .outer =>
      if h : p < B.length then
        if B.get ⟨p, h⟩ = delimAt expect then
          p10run fuel (.inner (5 - (expect + 1))) B (p + 1) (expect + 1) disp
        else
          p10run fuel .outer B (p + 1) 0 disp
      else
        some { buffer := B, pos := p, expect := expect, dispatched := disp }
    | .inner (k + 1) =>
      if h : p < B.length then
        if B.get ⟨p, h⟩ = delimAt expect then
          p10run fuel (.inner k) B (p + 1) (expect + 1) disp
        else
          p10run fuel .outer B (p + 1) 0 disp
      else
        some { buffer := B, pos := p, expect := expect, dispatched := disp }

/-- One invocation of `Rfc4742Session._parse10` (session.py lines 188-233):
`expect` is read from `_parsing_state10`, the buffer is read from
`_parsing_pos10` on; the write-back stores the final buffer, assigns the
final `expect` to the (misspelled) attribute `_parsing_state`, leaves
`_parsing_state10` untouched, and stores `buf.tell()` in `_parsing_pos10`. -/
def parse10 (s : P10State) : Option (P10State × List (List Char)) :=
  match p10run (2 * s.buffer.length + 8) .outer s.buffer s.pos10 s.parsing_state10 [] with
  | some f =>
    some ({ buffer := f.buffer, parsing_state10 := s.parsing_state10,
            parsing_state := f.expect, pos10 := f.pos }, f.dispatched)
  | none => none

/-- `StringIO.write` at a given cursor position: overwrite from `pos` on and
extend.  The transport loop (stdio.py line 72) writes incoming data at the
buffer cursor, which after any parser invocation equals the stored
`_parsing_pos10` / `_parsing_pos11` (both are set to `buf.tell()`). -/
def bufWrite (buffer : List Char) (pos : Nat) (data : List Char) : List Char :=
  buffer.take pos ++ data ++ buffer.drop (pos + data.length)

/-- Receive one fragment in v1.1 mode: append it to the session buffer at
the cursor, then run `_parse11` (stdio.py lines 72-75). -/
def feed11 (s : P11State) (data : List Char) : P11Out :=
  parse11 { s with buffer := bufWrite s.buffer s.pos data }

/-- Receive one fragment in v1.0 mode: append it to the session buffer at
the cursor, then run `_parse10` (stdio.py lines 72 and 77/81). -/
def feed10 (s : P10State) (data : List Char) : Option (P10State × List (List Char)) :=
  parse10 { s with buffer := bufWrite s.buffer s.pos10 data }

/-- Feed a sequence of fragments through `_parse11`, collecting every
dispatched message; a framing exception aborts the transport loop
(stdio.py lines 112-115) and is returned as the error. -/
def runFeeds11 : P11State → List (List Char) → Except P11State (P11State × List (List Char))
  | s, [] => .ok (s, [])
  | s, f :: fs =>
    match feed11 s f with
    | .ok s' d =>
      match runFeeds11 s' fs with
      | .ok (s'', d') => .ok (s'', d ++ d')
      | .error e => .error e
    | .err e => .error e

/-- Feed a sequence of fragments through `_parse10`, collecting every
dispatched message (`none` only on fuel exhaustion, which no reachable run
triggers). -/
def runFeeds10 : P10State → List (List Char) → Option (P10State × List (List Char))
  | s, [] => some (s, [])
  | s, f :: fs =>
    match feed10 s f with
    | some (s', d) =>
      match runFeeds10 s' fs with
      | some (s'', d') => some (s'', d ++ d')
      | none => none
    | none => none

/-- The base:1.1 capability URI tested in `StdIOSession.run`. -/
def cap11 : String := "urn:ietf:params:netconf:base:1.1"

/-- The base:1.0 capability URI tested in `StdIOSession.run`. -/
def cap10 : String := "urn:ietf:params:netconf:base:1.0"

/-- Which frame routine a step of the transport loop picks. -/
inductive FrameKind where
  | v11
  | v10
  deriving DecidableEq, Repr

/-- Read-path selection of `StdIOSession.run` (stdio.py lines 73-81):
with server capabilities known, run `_parse11` if both sides advertise
base:1.1, else `_parse10` if either side advertises base:1.0, else raise;
before the server hello arrives (`self._server_capabilities` is `None`)
always run `_parse10`. -/
def readFrameKind (client : List String) (server : Option (List String)) :
    Except Unit FrameKind :=
  match server with
  | some sc =>
    if cap11 ∈ sc ∧ cap11 ∈ client then .ok .v11
    else if cap10 ∈ sc ∨ cap10 ∈ client then .ok .v10
    else .error ()
  | none => .ok .v10

/-- Write-path framing selection of `StdIOSession.run` (stdio.py
lines 84-108): a message that validates as a `hello` element always gets
EOM framing; otherwise, if the client advertises base:1.1, the negotiated
version decides (both sides 1.1 chunked, server base:1.0 EOM, neither a
raise, and server capabilities still unknown also a raise, line 104);
if the client does not advertise base:1.1 the message gets EOM framing
unconditionally.  `isHello` stands for `validated_element` succeeding on
the hello tag (an external XML primitive). -/
def writeFrameKind (isHello : Bool) (client : List String)
    (server : Option (List String)) : Except Unit FrameKind :=
  if isHello then .ok .v10
  else if cap11 ∈ client then
    match server with
    | some sc =>
      if cap11 ∈ sc then .ok .v11
      else if cap10 ∈ sc then .ok .v10
      else .error ()
    | none => .error ()
  else .ok .v10

/-- The selection rule exactly as the claim states it, for comparison with
the code's selection: chunked only if BOTH sides advertise base:1.1,
otherwise EOM if EITHER side advertises base:1.0, otherwise an error. -/
def claimedFrameKind (client : List String) (server : List String) :
    Except Unit FrameKind :=
  if cap11 ∈ client ∧ cap11 ∈ server then .ok .v11
  else if cap10 ∈ client ∨ cap10 ∈ server then .ok .v10
  else .error ()

/-- A registered `SessionListener`, abstracted to whether its `callback`
and its `errback` raise when invoked. -/
structure Listener where
  cbThrows : Bool
  ebThrows : Bool
  deriving DecidableEq, Repr

/-- The dispatch loop of `Session._dispatch_message` (session.py
lines 54-56) over the snapshot of listeners, instrumented with the index of
each listener whose `callback` is entered: `l.callback(root, raw)` is run
with no try-except, so the first raising listener aborts the loop and the
exception propagates to the caller. -/
def callbackLoop : List Listener → Nat → Except Unit (List Nat)
  | [], _ => .ok []
  | l :: ls, i =>
    if l.cbThrows then .error ()
    else
      match callbackLoop ls (i + 1) with
      | .ok inv => .ok (i :: inv)
      | .error e => .error e

/-- The dispatch loop of `Session._dispatch_error` (session.py lines 61-66):
`l.errback(err)` is run inside try-except; a raising listener is logged and
the loop continues, so every listener in the snapshot is invoked and the
function always returns normally (hence the total, exception-free type). -/
def errbackLoop : List Listener → Nat → List Nat
  | [], _ => []
  | l :: ls, i =>
    if l.ebThrows then i :: errbackLoop ls (i + 1)
    else i :: errbackLoop ls (i + 1)

/-- `Session._dispatch_message` (session.py lines 46-56): first
`parse_root(raw)` (an external XML primitive, abstracted by its outcome);
on a parse exception the error is logged and the method returns with no
listener invoked; otherwise the snapshot loop runs the callbacks. -/
def dispatchMessage (parseResult : Except Unit Unit) (ls : List Listener) :
    Except Unit (List Nat) :=
  match parseResult with
  | .error _ => .ok []
  | .ok _ => callbackLoop ls 0

/-- Session state relevant to `Session.send`: the `_connected` flag and the
outgoing queue `_q` as the list of queued messages in order. -/
structure SessionState where
  connected : Bool
  outq : List String
  deriving DecidableEq, Repr

/-- `Session.send` (session.py lines 135-140): raise `TransportError` if not
connected (the queue untouched, since the raise precedes the `put`),
otherwise enqueue the message. -/
def send (s : SessionState) (m : String) : Except Unit Unit × SessionState :=
  if s.connected = false then (.error (), s)
  else (.ok (), { s with outq := s.outq ++ [m] })

/-- Every `_parse11` invocation that returns normally dispatches at most one
message: the only dispatch site (terminator newline, session.py line 334)
is immediately followed by `break` (line 344). -/
theorem p11go_ok_len : ∀ (rest : List Char) (s0 : P11State) (msg : List Char)
    (exp cur st ie : Nat) (num : List Char) (s' : P11State) (d : List (List Char)),
    p11go s0 msg exp cur st ie num rest = .ok s' d → d.length ≤ 1 := by
  intro rest
  induction rest with
  | nil =>
    intro s0 msg exp cur st ie num s' d h
    simp only [p11go] at h
    cases h
    simp
  | cons x xs ih =>
    intro s0 msg exp cur st ie num s' d h
    simp only [p11go] at h
    split_ifs at h <;>
      first
        | (cases h; simp)
        | exact ih _ _ _ _ _ _ _ _ _ h

/-- Every raise site of `_parse11` is reached before the write-back of
session.py lines 352-358, so the observable fields at the raise are the
entry fields, except that `_message` holds the entry content extended by the
chunk characters appended in place during this call. -/
theorem p11go_err_shape : ∀ (rest : List Char) (s0 : P11State) (msg : List Char)
    (exp cur st ie : Nat) (num : List Char) (s' : P11State),
    p11go s0 msg exp cur st ie num rest = .err s' →
    ∃ t, s' = { s0 with message := msg ++ t } := by
  intro rest
  induction rest with
  | nil =>
    intro s0 msg exp cur st ie num s' h
    simp only [p11go] at h
    cases h
  | cons x xs ih =>
    intro s0 msg exp cur st ie num s' h
    simp only [p11go] at h
    split_ifs at h <;>
      first
        | (cases h; exact ⟨[], by simp⟩)
        | exact ih _ _ _ _ _ _ _ _ h
        | (obtain ⟨t, ht⟩ := ih _ _ _ _ _ _ _ _ h;
           exact ⟨x :: t, by simp [ht]⟩)

/-- Consuming digits in the `instart` state: starting at header position `j`
with accumulated digits `num`, a run of further digits followed by the
header newline is accepted while the position counter stays below
`MAX_STARTCHUNK_SIZE = 10`, and the digits are parsed as the expected chunk
size. -/
theorem p11go_digits_ok : ∀ (ds : List Char) (s0 : P11State) (msg : List Char)
    (exp cur j : Nat) (num : List Char),
    (∀ c ∈ ds, isDigitChar c = true) → 3 ≤ j → j + ds.length ≤ 9 → num ≠ [] →
    p11go s0 msg exp cur 1 j num (ds ++ ['\n']) =
      .ok { message := msg, expchunksize := digitsVal (num ++ ds),
            curchunksize := 0, parsing_state11 := 2,
            inendpos := j + ds.length + 1,
            buffer := s0.buffer, pos := s0.buffer.length } [] := by
  intro ds
  induction ds with
  | nil =>
    intro s0 msg exp cur j num hd h3 h9 hnum
    have hj1 : j ≠ 1 := by omega
    have hj2 : j ≠ 2 := by omega
    have hj10 : j ≠ 10 := by omega
    simp [p11go, hj1, hj2, hj10, hnum]
  | cons d ds' ih =>
    intro s0 msg exp cur j num hd h3 h9 hnum
    have hd0 : isDigitChar d = true := hd d (by simp)
    have hdn : d ≠ '\n' := by
      intro e
      rw [e] at hd0
      exact absurd hd0 (by decide)
    have hj1 : j ≠ 1 := by omega
    have hj2 : j ≠ 2 := by
      simp at h9
      omega
    have hj10 : j ≠ 10 := by
      simp at h9
      omega
    have hrec := ih s0 msg exp cur (j + 1) (num ++ [d])
      (fun c hc => hd c (by simp [hc])) (by omega) (by simp at h9 ⊢; omega)
      (by simp)
    simp only [List.cons_append]
    simp only [p11go, hj1, hj2, hj10, hdn, hd0, if_false, if_true]
    rw [hrec]
    simp [List.append_assoc]
    omega

/-- Consuming digits in the `instart` state: when the position counter would
reach `MAX_STARTCHUNK_SIZE = 10` before the header newline is accepted, the
call raises, observable fields unchanged. -/
theorem p11go_digits_err : ∀ (ds : List Char) (s0 : P11State) (msg : List Char)
    (exp cur j : Nat) (num : List Char),
    (∀ c ∈ ds, isDigitChar c = true) → 3 ≤ j → j ≤ 10 → 10 ≤ j + ds.length →
    p11go s0 msg exp cur 1 j num (ds ++ ['\n']) = .err { s0 with message := msg } := by
  intro ds
  induction ds with
  | nil =>
    intro s0 msg exp cur j num hd h3 h10 hlo
    have hj : j = 10 := by simp at hlo; omega
    subst hj
    simp [p11go]
  | cons d ds' ih =>
    intro s0 msg exp cur j num hd h3 h10 hlo
    by_cases hj : j = 10
    · subst hj
      simp [p11go]
    · have hd0 : isDigitChar d = true := hd d (by simp)
      have hdn : d ≠ '\n' := by
        intro e
        rw [e] at hd0
        exact absurd hd0 (by decide)
      have hj1 : j ≠ 1 := by omega
      have hj2 : j ≠ 2 := by omega
      have hrec := ih s0 msg exp cur (j + 1) (num ++ [d])
        (fun c hc => hd c (by simp [hc])) (by omega) (by omega)
        (by simp at hlo ⊢; omega)
      simp only [List.cons_append]
      simp only [p11go, hj1, hj2, hj, hdn, hd0, if_false, if_true]
      exact hrec

/-- In the `instart` state a character that is neither a digit, nor the
header newline, nor `#` raises, whatever the header position is. -/
theorem p11go_header_bad_char : ∀ (s0 : P11State) (msg : List Char)
    (exp cur j : Nat) (num : List Char) (c : Char) (rest : List Char),
    isDigitChar c = false → c ≠ '\n' → c ≠ '#' →
    p11go s0 msg exp cur 1 j num (c :: rest) = .err { s0 with message := msg } := by
  intro s0 msg exp cur j num c rest hdig hn hh
  simp only [p11go]
  split_ifs <;> simp_all

/-- The try-except around each `errback` call makes `_dispatch_error` invoke
every listener of the snapshot, in order, whatever each one does. -/
theorem ebloop_range : ∀ (ls : List Listener) (i : Nat),
    errbackLoop ls i = List.range' i ls.length := by
  intro ls
  induction ls with
  | nil =>
    intro i
    simp [errbackLoop]
  | cons l ls ih =>
    intro i
    rw [List.length_cons, List.range'_succ]
    by_cases he : l.ebThrows <;> simp [errbackLoop, he, ih]

/-- A listener whose `callback` raises makes the un-guarded dispatch loop of
`_dispatch_message` propagate the exception. -/
theorem cbloop_err : ∀ (ls : List Listener) (i : Nat),
    (∃ l ∈ ls, l.cbThrows = true) → callbackLoop ls i = .error () := by
  intro ls
  induction ls with
  | nil =>
    intro i h
    obtain ⟨l, hl, _⟩ := h
    cases hl
  | cons l ls ih =>
    intro i h
    by_cases hc : l.cbThrows
    · simp [callbackLoop, hc]
    · obtain ⟨l', hl', ht⟩ := h
      have htl : ∃ x ∈ ls, x.cbThrows = true := by
        rcases hl' with _ | hmem
        · exact absurd ht (by simpa using hc)
        · exact ⟨l', by assumption, ht⟩
      simp [callbackLoop, hc, ih (i + 1) htl]

/-- C1: streaming equivalence fails for both parsers.  The v1.1 encoding of
the 12-byte message abcdefghijkl, fed whole, dispatches it; fed as the
fragments `\n#1` and `2\nabcdefghijkl\n##\n` (split inside the numeric
length field) the second call raises, because the local `num` holding the
accumulated chunk-size digits is re-created on every `_parse11` call: the
chunk size is parsed as 2 instead of 12, and the byte after the two chunk
bytes is not the expected newline.  For `_parse10`, the v1.0 encoding
`a]]>]]>` fed whole dispatches `a`, but fed as `a]]` and `>]]>` nothing is
ever dispatched: the partial-match count is written back to the misspelled
attribute `_parsing_state` (session.py line 232) while line 198 reads
`_parsing_state10`, so the count resets to 0 between calls and the
delimiter characters already consumed are never re-examined. -/
theorem c1_streaming_state_loss :
    runFeeds11 (freshP11 []) [("\n#12\nabcdefghijkl\n##\n".toList)] =
      .ok ({ message := [], expchunksize := 0, curchunksize := 12,
             parsing_state11 := 0, inendpos := 0, buffer := [], pos := 0 },
           [("abcdefghijkl".toList)]) ∧
    runFeeds11 (freshP11 []) [("\n#1".toList), ("2\nabcdefghijkl\n##\n".toList)] =
      .error { message := ("ab".toList), expchunksize := 0, curchunksize := 0,
               parsing_state11 := 1, inendpos := 3,
               buffer := ("\n#12\nabcdefghijkl\n##\n".toList), pos := 3 } ∧
    runFeeds10 freshP10 [("a]]>]]>".toList)] =
      some ({ buffer := [], parsing_state10 := 0, parsing_state := 0, pos10 := 0 },
            [("a".toList)]) ∧
    runFeeds10 freshP10 [("a]]".toList), (">]]>".toList)] =
      some ({ buffer := ("a]]>]]>".toList), parsing_state10 := 0,
              parsing_state := 3, pos10 := 7 }, []) := by
  refine ⟨?_, ?_, ?_, ?_⟩ <;> decide

/-- C2 counterexample: one `_parse11` invocation on a buffer holding two
complete chunked messages dispatches only the first; the invocation
returns normally with the complete second message still in the buffer,
contradicting the claim that no complete message remains undispatched. -/
theorem c2_two_messages_one_dispatch :
    parse11 (freshP11 ("\n#1\na\n##\n\n#1\nb\n##\n".toList)) =
      .ok { message := [], expchunksize := 0, curchunksize := 1,
            parsing_state11 := 0, inendpos := 0,
            buffer := ("\n#1\nb\n##\n".toList), pos := 0 }
         [("a".toList)] := by
  decide

/-- C2 (amended): a `_parse11` invocation that returns normally dispatches
at most one message; the dispatch site breaks out of the loop, so any
further complete message stays in the buffer for later invocations. -/
theorem c2_parse11_single_dispatch_per_call (s s' : P11State)
    (d : List (List Char)) (h : parse11 s = P11Out.ok s' d) : d.length ≤ 1 := by
  unfold parse11 at h
  exact p11go_ok_len _ _ _ _ _ _ _ _ _ _ h

/-- C2 witness: the amended theorem applied to the two-message buffer. -/
theorem c2_single_dispatch_wit : ([("a".toList)] : List (List Char)).length ≤ 1 :=
  c2_parse11_single_dispatch_per_call
    (freshP11 ("\n#1\na\n##\n\n#1\nb\n##\n".toList))
    { message := [], expchunksize := 0, curchunksize := 1, parsing_state11 := 0,
      inendpos := 0, buffer := ("\n#1\nb\n##\n".toList), pos := 0 }
    [("a".toList)] (by decide)

/-- C3: a well-formed two-chunk v1.1 message raises instead of dispatching
the concatenation of the chunk bodies: after a chunk body the `inbetween`
state only accepts `\n##`, so the second chunk header `\n#1` raises at its
length digit; a single-chunk message is parsed correctly. -/
theorem c3_multichunk_raises :
    parse11 (freshP11 ("\n#1\na\n#1\nb\n##\n".toList)) =
      .err { message := ("a".toList), expchunksize := 0, curchunksize := 0,
             parsing_state11 := 0, inendpos := 0,
             buffer := ("\n#1\na\n#1\nb\n##\n".toList), pos := 0 } ∧
    parse11 (freshP11 ("\n#2\nab\n##\n".toList)) =
      .ok { message := [], expchunksize := 0, curchunksize := 2,
            parsing_state11 := 0, inendpos := 0, buffer := [], pos := 0 }
         [("ab".toList)] := by
  constructor <;> decide

/-- C4: the EOM scanner dispatches on the five-character prefix `]]>]]` of
the six-character delimiter, skipping the sixth byte unchecked, so
`a]]>]]x` (which contains no full delimiter) dispatches `a`; and a
mismatched byte is consumed without being re-checked, so `a]]]>]]>`
(message body `a]` followed by the full delimiter) dispatches nothing. -/
theorem c4_eom_delimiter_mismatch :
    parse10 { freshP10 with buffer := ("a]]>]]x".toList) } =
      some ({ buffer := [], parsing_state10 := 0, parsing_state := 0, pos10 := 0 },
            [("a".toList)]) ∧
    parse10 { freshP10 with buffer := ("a]]]>]]>".toList) } =
      some ({ buffer := ("a]]]>]]>".toList), parsing_state10 := 0,
              parsing_state := 3, pos10 := 8 }, []) := by
  constructor <;> decide

/-- C5 counterexample: an eight-digit chunk-length header raises, although
the claim says headers of up to ten digits are accepted: the position
counter `inendpos` (which already counted the leading newline and `#`)
reaches `MAX_STARTCHUNK_SIZE = 10` at the header newline. -/
theorem c5_eight_digit_header_rejected :
    parse11 (freshP11 ("\n#12345678\n".toList)) =
      .err (freshP11 ("\n#12345678\n".toList)) := by
  decide

/-- C5 (amended): the chunk-length header accepts at most seven digits.
Every header of one to seven digits terminated by a newline is accepted,
with the digits parsed as the expected chunk length; eight or more digits
raise a framing violation (the position counter, which also counts the
leading newline and `#`, hits `MAX_STARTCHUNK_SIZE = 10` on the ninth digit
or on the newline after the eighth); any byte that is neither a digit, the
header newline, nor `#` raises as well. -/
theorem c5_header_digit_bound (ds : List Char)
    (hd : ∀ c ∈ ds, isDigitChar c = true) (hne : ds ≠ []) :
    (ds.length ≤ 7 →
      parse11 (freshP11 ('\n' :: '#' :: (ds ++ ['\n']))) =
        .ok { message := [], expchunksize := digitsVal ds, curchunksize := 0,
              parsing_state11 := 2, inendpos := ds.length + 3,
              buffer := '\n' :: '#' :: (ds ++ ['\n']),
              pos := ('\n' :: '#' :: (ds ++ ['\n'])).length } []) ∧
    (8 ≤ ds.length →
      parse11 (freshP11 ('\n' :: '#' :: (ds ++ ['\n']))) =
        .err (freshP11 ('\n' :: '#' :: (ds ++ ['\n'])))) ∧
    (∀ (c : Char) (rest : List Char) (j : Nat),
      isDigitChar c = false → c ≠ '\n' → c ≠ '#' →
      p11go (freshP11 []) [] 0 0 1 j [] (c :: rest) =
        .err { freshP11 [] with message := [] }) := by
  obtain ⟨d, ds', rfl⟩ := List.exists_cons_of_ne_nil hne
  have hd0 : isDigitChar d = true := hd d (by simp)
  refine ⟨?_, ?_, ?_⟩
  · intro hlen
    have hds' : ∀ c ∈ ds', isDigitChar c = true := fun c hc => hd c (by simp [hc])
    have hlen' : 3 + ds'.length ≤ 9 := by simp at hlen; omega
    simp only [parse11, freshP11, List.drop_zero, List.cons_append]
    simp only [p11go, hd0, if_true]
    rw [show ([] : List Char) ++ [d] = [d] from rfl,
        p11go_digits_ok ds' _ [] 0 0 3 [d] hds' (by omega) hlen' (by simp)]
    simp [digitsVal]
    omega
  · intro hlen
    have hds' : ∀ c ∈ ds', isDigitChar c = true := fun c hc => hd c (by simp [hc])
    have hlen' : 10 ≤ 3 + ds'.length := by simp at hlen; omega
    have hstep := p11go_digits_err ds'
      (freshP11 ('\n' :: '#' :: (d :: ds' ++ ['\n']))) [] 0 0 3 [d]
      hds' (by omega) (by omega) hlen'
    simp [parse11, freshP11, p11go, hd0, hstep]
    simpa [freshP11] using hstep
  · intro c rest j hdig hn hh
    exact p11go_header_bad_char _ _ _ _ _ _ _ _ hdig hn hh

/-- C5 witness: a seven-digit header is accepted with the parsed length. -/
theorem c5_header_digit_bound_wit :
    parse11 (freshP11 ('\n' :: '#' :: ("1234567".toList ++ ['\n']))) =
      .ok { message := [], expchunksize := digitsVal ("1234567".toList),
            curchunksize := 0, parsing_state11 := 2,
            inendpos := "1234567".toList.length + 3,
            buffer := '\n' :: '#' :: ("1234567".toList ++ ['\n']),
            pos := ('\n' :: '#' :: ("1234567".toList ++ ['\n'])).length } [] :=
  (c5_header_digit_bound ("1234567".toList) (by decide) (by decide)).1 (by decide)

/-- C6 counterexample: after the handshake, with neither side advertising
base:1.1 or base:1.0, the write path frames with EOM instead of raising the
configuration error the claimed rule demands. -/
theorem c6_write_no_caps_eom :
    writeFrameKind false [] (some []) = .ok FrameKind.v10 ∧
    claimedFrameKind [] [] = .error () := by
  constructor <;> decide

/-- C6 (amended): the read path follows the claimed rule exactly (chunked
only if both sides advertise base:1.1, else EOM if either advertises
base:1.0, else an error; EOM unconditionally before the server hello).  On
the write path, hello messages always use EOM; for other messages, when the
client advertises base:1.1 the claimed rule applies against the server set
(and unknown server capabilities raise rather than fall back to EOM); when
the client does not advertise base:1.1, EOM is used unconditionally, even
if neither side advertises base:1.0. -/
theorem c6_version_selection :
    ∀ (client sc : List String),
      readFrameKind client none = .ok .v10 ∧
      readFrameKind client (some sc) = claimedFrameKind client sc ∧
      writeFrameKind true client (some sc) = .ok .v10 ∧
      writeFrameKind true client none = .ok .v10 ∧
      (cap11 ∈ client → writeFrameKind false client none = .error ()) ∧
      (cap11 ∉ client → writeFrameKind false client none = .ok .v10 ∧
                        writeFrameKind false client (some sc) = .ok .v10) ∧
      (cap11 ∈ client → writeFrameKind false client (some sc) =
         (if cap11 ∈ sc then .ok .v11
          else if cap10 ∈ sc then .ok .v10
          else .error ())) := by
  intro client sc
  by_cases h1 : cap11 ∈ client <;> by_cases h2 : cap11 ∈ sc <;>
    by_cases h3 : cap10 ∈ client <;> by_cases h4 : cap10 ∈ sc <;>
    simp [readFrameKind, claimedFrameKind, writeFrameKind, h1, h2, h3, h4]

/-- C6 witness: a client that advertises base:1.1 against a server that
advertises only base:1.0 writes with EOM framing. -/
theorem c6_version_selection_wit :
    writeFrameKind false [cap11] (some [cap10]) = .ok FrameKind.v10 := by
  have h := (c6_version_selection [cap11] [cap10]).2.2.2.2.2.2 (by decide)
  rw [h]
  decide

/-- C7: `_dispatch_message` runs the listener callbacks with no try-except,
so a raising callback propagates out of the dispatch; `_dispatch_error`
wraps each `errback` in try-except, so every listener of the snapshot is
invoked (indices `0..n-1` in order) and nothing propagates, whatever the
listeners do. -/
theorem c7_listener_fault_asymmetry :
    ∀ ls : List Listener,
      ((∃ l ∈ ls, l.cbThrows = true) → callbackLoop ls 0 = .error ()) ∧
      errbackLoop ls 0 = List.range ls.length := by
  intro ls
  refine ⟨cbloop_err ls 0, ?_⟩
  rw [ebloop_range ls 0, List.range_eq_range']

/-- C7 witness: with a first listener that raises in both callbacks and a
well-behaved second one, message dispatch propagates the exception while
error dispatch reaches both listeners. -/
theorem c7_listener_fault_asymmetry_wit :
    callbackLoop [⟨true, true⟩, ⟨false, false⟩] 0 = .error () ∧
    errbackLoop [⟨true, true⟩, ⟨false, false⟩] 0 = List.range 2 :=
  ⟨(c7_listener_fault_asymmetry [⟨true, true⟩, ⟨false, false⟩]).1 (by decide),
   (c7_listener_fault_asymmetry [⟨true, true⟩, ⟨false, false⟩]).2⟩

/-- C8: `send` on a disconnected session raises and leaves the outgoing
queue (and the whole session state) unchanged, because the raise precedes
the enqueue; on a connected session it appends the message to the queue and
returns normally. -/
theorem c8_send_not_connected :
    ∀ (s : SessionState) (m : String),
      (s.connected = false → send s m = (.error (), s)) ∧
      (s.connected = true → send s m = (.ok (), { s with outq := s.outq ++ [m] })) := by
  intro s m
  constructor <;> intro h <;> simp [send, h]

/-- C8 witness: both cases of the theorem at a concrete session. -/
theorem c8_send_not_connected_wit :
    send { connected := false, outq := [] } "m" =
        (.error (), { connected := false, outq := [] }) ∧
    send { connected := true, outq := [] } "m" =
        (.ok (), { connected := true, outq := ["m"] }) :=
  ⟨(c8_send_not_connected { connected := false, outq := [] } "m").1 rfl,
   (c8_send_not_connected { connected := true, outq := [] } "m").2 rfl⟩

/-- C9: when `parse_root` fails on an inbound message, `_dispatch_message`
returns normally with no listener invoked (the error is logged and the
message dropped); `_dispatch_message` reads no parser field, so the stream
position is unaffected, and a v1.0 buffer whose first message is not XML
still yields both framed messages to dispatch in one call. -/
theorem c9_malformed_message_dropped :
    (∀ ls : List Listener, dispatchMessage (.error ()) ls = .ok []) ∧
    runFeeds10 freshP10 [("notxml]]>]]><ok/>]]>]]>".toList)] =
      some ({ buffer := [], parsing_state10 := 0, parsing_state := 0, pos10 := 0 },
            [("notxml".toList), ("<ok/>".toList)]) :=
  ⟨fun _ => rfl, by decide⟩

/-- C10 counterexample: a framing violation right after a completed chunk
body leaves `_message` holding the chunk bytes appended in place during the
failed invocation — it does not retain its pre-invocation value (here the
fresh empty list). -/
theorem c10_message_mutated_on_err :
    parse11 (freshP11 ("\n#1\naZ".toList)) =
      .err { freshP11 ("\n#1\naZ".toList) with message := ("a".toList) } ∧
    ("a".toList) ≠ (freshP11 ("\n#1\naZ".toList)).message := by
  constructor <;> decide

/-- C10 (amended): when `_parse11` raises, every persisted scalar field
(`_expchunksize`, `_curchunksize`, `_parsing_state11`, `_inendpos`,
`_parsing_pos11`) and the `_buffer` reference retain their pre-invocation
values, because every raise precedes the end-of-call write-back; but
`_message` is a list mutated in place through the aliasing local, so at the
raise it holds its pre-invocation content extended by the chunk bytes
consumed during the failed call. -/
theorem c10_err_atomicity (s s' : P11State) (h : parse11 s = P11Out.err s') :
    s'.expchunksize = s.expchunksize ∧ s'.curchunksize = s.curchunksize ∧
    s'.parsing_state11 = s.parsing_state11 ∧ s'.inendpos = s.inendpos ∧
    s'.buffer = s.buffer ∧ s'.pos = s.pos ∧
    ∃ t, s'.message = s.message ++ t := by
  unfold parse11 at h
  obtain ⟨t, ht⟩ := p11go_err_shape _ _ _ _ _ _ _ _ _ h
  subst ht
  exact ⟨rfl, rfl, rfl, rfl, rfl, rfl, t, rfl⟩

/-- C10 witness: the amended theorem applied to the aborting input, showing
the grown message content. -/
theorem c10_err_atomicity_wit :
    ∃ t, ("a".toList : List Char) = (freshP11 ("\n#1\naZ".toList)).message ++ t :=
  (c10_err_atomicity (freshP11 ("\n#1\naZ".toList))
    { freshP11 ("\n#1\naZ".toList) with message := ("a".toList) }
    (by decide)).2.2.2.2.2.2

end Ncclient
